/-
  Verification of the high-resolution filament sensor module
  (klippy/extras/high_resolution_filament_sensor.py).

  The Python classes are shallowly embedded: pure methods become Lean
  functions, stateful methods become explicit state-passing functions on
  structure types mirroring the Python object fields.  Python floats are
  modelled as rationals, Python unbounded integers as Int/Nat, Python
  Optional values as Option, and paths on which the Python code raises an
  uncaught exception return an explicit error value.
-/
import Mathlib

/-- Kinds of exceptions the embedded Python code can raise. -/
inductive PyErr where
  | typeError
  | attributeError
deriving DecidableEq, Repr

instance instDecEqExcept {e a : Type} [DecidableEq e] [DecidableEq a] :
    DecidableEq (Except e a)
  | .ok x, .ok y => if h : x = y then isTrue (by rw [h]) else isFalse (by simp [h])
  | .ok _, .error _ => isFalse (by simp)
  | .error _, .ok _ => isFalse (by simp)
  | .error x, .error y => if h : x = y then isTrue (by rw [h]) else isFalse (by simp [h])

/-! ## SensorRotationHelper (source lines 112-142)

Converts raw point-in-time readings from the sensor into an angular
position.  The field names follow the Python attributes; the fields
angle_max_value and mask of the Python object are derived values and are
embedded as functions of resolution and ignore_bits. -/

structure SensorRotationHelper where
  resolution : Nat
  ignore_bits : Nat
  /-- the Python attribute _absolute_angular_position -/
  absPos : Int
deriving DecidableEq, Repr

/-- Source line 121: angle_max_value = (1 << resolution) - 1. -/
def SensorRotationHelper.angle_max_value (h : SensorRotationHelper) : Int :=
  2 ^ h.resolution - 1

/-- Python expression pos & ~mask with mask = 2^k - 1 on unbounded
two-complement integers: clears the k low bits, which equals subtracting
the (always nonnegative) Python remainder pos % 2^k.  Int.emod agrees with
the Python remainder for a positive modulus. -/
def pyAndNotMask (pos : Int) (k : Nat) : Int :=
  pos - pos % 2 ^ k

/-- Source line 140-142: update_raw stores turns * angle_max_value + angle. -/
def SensorRotationHelper.update_raw (h : SensorRotationHelper)
    (turns angle : Int) : SensorRotationHelper :=
  { h with absPos := turns * h.angle_max_value + angle }

/-- Source line 136-138: ((pos & ~mask) / float(angle_max_value) * 360). -/
def SensorRotationHelper.absolute_angular_position (h : SensorRotationHelper) : ℚ :=
  ((pyAndNotMask h.absPos h.ignore_bits : ℚ) / (h.angle_max_value : ℚ)) * 360

/-- Source line 131-134: (angle_min_value / float(angle_max_value) * 360). -/
def SensorRotationHelper.angular_resolution (h : SensorRotationHelper) : ℚ :=
  (((2 : ℤ) ^ h.ignore_bits : ℚ) / (h.angle_max_value : ℚ)) * 360

/-! ## SensorEvent (source lines 51-70) and CommandedMove (source lines 160-277)

Python float attributes become rationals.  The estimated extruder
position recorded in a SensorEvent is the value obtained from
_get_extruder_pos at event creation time; after the ready event it is
always a number, and it is modelled as such. -/

structure SensorEvent where
  eventtime : ℚ
  position : ℚ
  distance : ℚ
  epos : ℚ
deriving DecidableEq, Repr

structure CommandedMove where
  eventtime : ℚ
  pos : ℚ
  last_epos : ℚ
  epos : ℚ
  distance : ℚ
  ended : Bool
  sensor_events : List SensorEvent
  first_event : Option SensorEvent
  last_event : Option SensorEvent
  first_motion_event : Option SensorEvent
  last_motion_event : Option SensorEvent
deriving DecidableEq, Repr

/-- Source lines 170-196: the CommandedMove constructor. -/
def CommandedMove.init (eventtime pos last_epos epos : ℚ) : CommandedMove :=
  { eventtime := eventtime
    pos := pos
    last_epos := last_epos
    epos := epos
    distance := epos - last_epos
    ended := false
    sensor_events := []
    first_event := none
    last_event := none
    first_motion_event := none
    last_motion_event := none }

/-- Source lines 205-214: add_sensor_event. -/
def CommandedMove.add_sensor_event (m : CommandedMove) (event : SensorEvent)
    (capture : Bool) : CommandedMove :=
  let m := if capture then { m with sensor_events := event :: m.sensor_events } else m
  let m := if m.first_event = none then { m with first_event := some event } else m
  let m :=
    if event.distance ≠ 0 then
      let m :=
        if m.first_motion_event = none then { m with first_motion_event := some event } else m
      { m with last_motion_event := some event }
    else m
  { m with last_event := some event }

/-- Truthiness of a Python Optional[float] value, as used by the walrus
tests of the source: None and 0.0 are falsy, every other float is truthy. -/
def pyTruthyQ : Option ℚ → Option ℚ
  | some q => if q = 0 then none else some q
  | none => none

/-- Source lines 216-220: last_motion_eventtime. -/
def CommandedMove.last_motion_eventtime (m : CommandedMove) : Option ℚ :=
  match m.last_motion_event with
  | some e => some e.eventtime
  | none => none

/-- Source lines 222-226: first_motion_eventtime. -/
def CommandedMove.first_motion_eventtime (m : CommandedMove) : Option ℚ :=
  match m.first_motion_event with
  | some e => some e.eventtime
  | none => none

/-- Source lines 236-240: duration.  The body runs only when
last_motion_eventtime is truthy; subtracting first_motion_eventtime when
that property yields None would raise a TypeError in Python. -/
def CommandedMove.duration (m : CommandedMove) : Except PyErr (Option ℚ) :=
  match pyTruthyQ m.last_motion_eventtime with
  | some e =>
      match m.first_motion_eventtime with
      | some f => .ok (some (e - f))
      | none => .error .typeError
  | none => .ok none

/-- Source lines 242-247: expected_distance. -/
def CommandedMove.expected_distance (m : CommandedMove) : Option ℚ :=
  match m.last_event with
  | some e => some (e.epos - m.last_epos)
  | none => none

/-- Source lines 249-255: measured_distance.  Reading .position off a
None first_event would raise an AttributeError in Python. -/
def CommandedMove.measured_distance (m : CommandedMove) : Except PyErr ℚ :=
  match m.last_event with
  | some e =>
      match m.first_event with
      | some f => .ok (e.position - f.position)
      | none => .error .attributeError
  | none => .ok 0

/-- Source lines 257-261: speed, guarded by the truthiness of duration. -/
def CommandedMove.speed (m : CommandedMove) : Except PyErr (Option ℚ) := do
  let d ← m.duration
  match pyTruthyQ d with
  | some d => do
      let md ← m.measured_distance
      return some (md / d)
  | none => return none

/-- Source lines 263-268: extrusion_rate, guarded by the truthiness of
expected_distance (None and 0.0 both fall through to the 0.0 return). -/
def CommandedMove.extrusion_rate (m : CommandedMove) : Except PyErr ℚ :=
  match pyTruthyQ m.expected_distance with
  | some d => do
      let md ← m.measured_distance
      return md / d
  | none => .ok 0

/-! ## TriggerOnChange (source lines 279-293)

The stored value is None, False or True; set receives a bool.  Python
compares with the is operator, which on the singletons None, False and
True coincides with equality.  Callback invocations are recorded in an
explicit log, oldest first, as (old value, new value) pairs. -/

structure TriggerOnChange where
  value : Option Bool
  calls : List (Option Bool × Bool)
deriving DecidableEq, Repr

/-- Source lines 286-289: set fires the callback exactly when the new
value differs from the stored one, then stores the new value. -/
def TriggerOnChange.set (t : TriggerOnChange) (v : Bool) : TriggerOnChange :=
  if some v ≠ t.value then
    { value := some v, calls := t.calls ++ [(t.value, v)] }
  else
    { t with value := some v }

/-- A user-visible console message produced through gcode respond calls.
logging.info and logging.warning lines are not user-visible and are not
recorded. -/
inductive ConsoleMsg where
  | info (s : String)
  | error (s : String)
deriving DecidableEq, Repr

/-- Source lines 639-647: _sensor_connected_changed.  The logging.info
call is not user-visible; when the old value is None the method returns
before producing any console output. -/
def sensorConnectedChanged (old : Option Bool) (new : Bool) : List ConsoleMsg :=
  if old = none then []
  else if new then [ConsoleMsg.info "Reconnected"]
  else [ConsoleMsg.error "No longer connected or data cannot be read"]

/-- Source lines 511-517: _measured_underextrusion_rate.  The move
argument is Optional; a CommandedMove object is always truthy. -/
def measuredUnderextrusionRate (move : Option CommandedMove) : Except PyErr ℚ :=
  match move with
  | some m => do
      let r ← m.extrusion_rate
      return min 1 (max (-1) (1 - r))
  | none => .ok 0

/-! ## SensorUART frame decoding (source lines 72-110) -/

/-- Modelled from the spec: the poly-based CRC-8 routine _calc_crc8 is
inherited from MCU_TMC_uart_bitbang in the Klipper file klippy/extras/
tmc_uart.py, which is not part of this repository.  The spec describes it
as a CRC-8 of all preceding bytes; the modelled routine is the TMC UART
CRC-8 with polynomial 0x07, consuming each byte least-significant bit
first, state kept in eight bits.  One bit step of that routine. -/
def crc8Bit (crc b : Nat) : Nat :=
  if (crc >>> 7) ^^^ (b &&& 1) ≠ 0 then ((crc <<< 1) ^^^ 0x07) &&& 0xff
  else (crc <<< 1) &&& 0xff

/-- Modelled from the spec: eight bit steps of the CRC-8 routine over one
byte, shifting the byte right after each step. -/
def crc8ByteAux : Nat → Nat × Nat → Nat × Nat
  | 0, p => p
  | n + 1, (crc, b) => crc8ByteAux n (crc8Bit crc b, b >>> 1)

/-- Modelled from the spec: the CRC-8 state after consuming one byte. -/
def crc8Byte (crc b : Nat) : Nat :=
  (crc8ByteAux 8 (crc, b)).1

/-- Modelled from the spec: the CRC-8 of a byte sequence, starting from
state 0. -/
def calcCrc8 (data : List Nat) : Nat :=
  data.foldl crc8Byte 0

/-- Source lines 75-87: _remove_serial_bits packs the received bytes into
one big integer least-significant byte first and extracts one byte per
ten bits, from bit offset 10 * i + 1. -/
def removeSerialBits (data : List Nat) : List Nat :=
  let mval := (data.foldl (fun acc d => (acc.1 ||| (d <<< acc.2), acc.2 + 8)) ((0 : Nat), (0 : Nat))).1
  (List.range (data.length * 8 / 10)).map (fun i => (mval >>> (i * 10 + 1)) &&& 0xff)

/-- Source lines 89-103: the checks _decode_read performs on the
unstuffed frame.  The comparisons mirror the source guards in order:
length, trailing CRC byte, the marker check (which, as written in the
source, rejects only when byte 0 differs from 0x05 AND byte 1 differs
from 0xff), and the register echo; on success the payload strictly
between the register echo and the CRC byte is returned. -/
def decodeFrame (reg : Nat) (decoded : List Nat) : Option (List Nat) :=
  if decoded.length < 5 then none
  else if decoded.getLast? ≠ some (calcCrc8 decoded.dropLast) then none
  else if decoded.getD 0 0 ≠ 0x05 ∧ decoded.getD 1 0 ≠ 0xff then none
  else if decoded.getD 2 0 ≠ reg then none
  else some ((decoded.drop 3).dropLast)

/-- Source lines 89-103: _decode_read = unstuffing followed by the frame
checks. -/
def decodeRead (reg : Nat) (data : List Nat) : Option (List Nat) :=
  decodeFrame reg (removeSerialBits data)

/-! ## HighResolutionFilamentSensor state (source lines 380-880)

The configuration options consumed by the methods under verification and
the mutable object attributes they touch.  TriggerOnChange-held booleans
are embedded by their stored value (the callbacks only write log or
console output, modelled separately where a claim is about them). -/

structure SensorConfig where
  invert_direction : Bool
  rotation_distance : ℚ
  underextrusion_max_rate : ℚ
  underextrusion_period : ℚ
deriving DecidableEq, Repr

structure HRFS where
  sensor_connected : Option Bool
  magnet_state : Nat
  filament_present : Option Bool
  rotation : SensorRotationHelper
  position : ℚ
  moves : List CommandedMove
  capture_history : Bool
  last_epos : ℚ
  underextrusion_start_time : Option ℚ
  underextruding : Option Bool
  status_evaluation_move : Option CommandedMove
deriving DecidableEq, Repr

/-- The while loop of source lines 636-637 with an explicit fuel bound;
each iteration pops the oldest move (the last element of the newest-first
list) while more than 100 are held. -/
def trimMovesAux : Nat → List CommandedMove → List CommandedMove
  | 0, l => l
  | n + 1, l => if l.length > 100 then trimMovesAux n l.dropLast else l

/-- Source lines 636-637: the while loop terminates after at most
length many iterations, so running the fuelled loop with the length as
fuel is exact. -/
def trimMoves (l : List CommandedMove) : List CommandedMove :=
  trimMovesAux l.length l

/-- Source lines 616-637: _inspect_commanded_move.  The early return when
the active extruder is not the configured one is modelled by the
extruder_matches flag; epos is the fourth toolhead coordinate read at the
start of the body. -/
def inspectCommandedMove (st : HRFS) (extruder_matches : Bool)
    (eventtime epos : ℚ) : HRFS :=
  if !extruder_matches then st
  else
    let distance := epos - st.last_epos
    let st :=
      if distance ≠ 0 then
        match st.moves with
        | [] =>
            let mv := CommandedMove.init eventtime st.position st.last_epos epos
            { st with moves := [mv], last_epos := mv.epos }
        | head :: rest =>
            let head := { head with ended := true }
            let prev_event := head.last_event
            let prev_epos :=
              match prev_event with
              | some e => e.epos
              | none => st.last_epos
            let mv := CommandedMove.init eventtime st.position prev_epos epos
            { st with moves := mv :: head :: rest, last_epos := mv.epos }
      else st
    { st with moves := trimMoves st.moves }

/-- The unsigned value of four little-endian bytes. -/
def u32LE (b0 b1 b2 b3 : Nat) : Nat :=
  b0 + 256 * b1 + 65536 * b2 + 16777216 * b3

/-- Reinterpret an unsigned 32-bit value as the signed value that
struct.unpack with a little-endian signed long format yields. -/
def i32ofU32 (u : Nat) : Int :=
  if u < 2147483648 then (u : Int) else (u : Int) - 4294967296

/-- Source lines 678-705: the block-read branch of
_update_state_from_sensor, starting from the i2c_read_reg result (None on
a caught transport exception, the response bytes otherwise).  Returns the
new state plus the exception escaping the method, if any.

When the read result is None, the guard not data is true, the branch sets
_sensor_connected to False, and then the warning call evaluates len(data)
on None, which raises a TypeError that propagates out of the method.
When bytes of a wrong length arrive, the same branch formats the warning
from the actual bytes and returns normally.

eventtime is the reactor time captured at the start of the method and
epos_est the _get_extruder_pos result used to build the SensorEvent. -/
def updateStateFromSensorBlock (cfg : SensorConfig) (eventtime epos_est : ℚ)
    (st : HRFS) (data? : Option (List Nat)) : HRFS × Option PyErr :=
  match data? with
  | none =>
      ({ st with sensor_connected := some false }, some PyErr.typeError)
  | some data =>
      if data = [] ∨ data.length ≠ 10 then
        ({ st with sensor_connected := some false }, none)
      else
        let magnet_state := data.getD 0 0
        let filament_presence := data.getD 1 0
        let full_turns := i32ofU32 (u32LE (data.getD 2 0) (data.getD 3 0) (data.getD 4 0) (data.getD 5 0))
        let angle := i32ofU32 (u32LE (data.getD 6 0) (data.getD 7 0) (data.getD 8 0) (data.getD 9 0))
        let st := { st with sensor_connected := some (magnet_state ≠ 0xff) }
        if magnet_state = 0xff then (st, none)
        else
          let st := { st with magnet_state := magnet_state,
                              filament_present := some (filament_presence = 1) }
          let rot := st.rotation.update_raw full_turns angle
          let inv : ℚ := if cfg.invert_direction then -1 else 1
          let new_position := cfg.rotation_distance * (rot.absolute_angular_position * inv) / 360
          let distance := new_position - st.position
          let st := { st with rotation := rot, position := new_position }
          match st.moves with
          | [] => (st, none)
          | move :: rest =>
              if move.ended then (st, none)
              else
                let event : SensorEvent :=
                  { eventtime := eventtime, position := new_position,
                    distance := distance, epos := epos_est }
                ({ st with moves := move.add_sensor_event event st.capture_history :: rest }, none)

/-- Truthiness of the boolean stored by a TriggerOnChange: its dunder
bool method returns the stored value, and Python raises a TypeError when
that value is None rather than a bool. -/
def pyBoolOpt : Option Bool → Except PyErr Bool
  | some b => .ok b
  | none => .error .typeError

/-- Source lines 785-807: _is_runout_condition.  now is the reactor
monotonic time of the tick; the result pairs the new state with the
returned boolean. -/
def isRunoutCondition (cfg : SensorConfig) (now : ℚ) (st : HRFS) :
    Except PyErr (HRFS × Bool) := do
  let fp ← pyBoolOpt st.filament_present
  if !fp then return (st, true)
  else
    let rate ← measuredUnderextrusionRate st.status_evaluation_move
    if rate > cfg.underextrusion_max_rate then
      match st.underextrusion_start_time with
      | none => return ({ st with underextrusion_start_time := some now }, false)
      | some t0 =>
          if t0 + cfg.underextrusion_period < now then
            return ({ st with underextruding := some true }, true)
          else
            return (st, false)
    else
      match st.underextrusion_start_time with
      | some _ =>
          return ({ st with underextruding := some false,
                            underextrusion_start_time := none }, false)
      | none => return (st, false)

/-! ## Reference tables for the CRC-8 byte map

crc8Byte is affine over bitwise XOR (proved below); the two tables list,
for each possible value v, the unique byte b with crc8Byte 0 b = v and
the unique state c with crc8Byte c 0 = v.  They witness that both
marginal maps are bijections of the byte range. -/

def gInvTable : List Nat := [0, 155, 173, 54, 182, 45, 27, 128, 91, 192, 246, 109, 237, 118, 64, 219, 205, 86, 96, 251, 123, 224, 214, 77, 150, 13, 59, 160, 32, 187, 141, 22, 134, 29, 43, 176, 48, 171, 157, 6, 221, 70, 112, 235, 107, 240, 198, 93, 75, 208, 230, 125, 253, 102, 80, 203, 16, 139, 189, 38, 166, 61, 11, 144, 67, 216, 238, 117, 245, 110, 88, 195, 24, 131, 181, 46, 174, 53, 3, 152, 142, 21, 35, 184, 56, 163, 149, 14, 213, 78, 120, 227, 99, 248, 206, 85, 197, 94, 104, 243, 115, 232, 222, 69, 158, 5, 51, 168, 40, 179, 133, 30, 8, 147, 165, 62, 190, 37, 19, 136, 83, 200, 254, 101, 229, 126, 72, 211, 193, 90, 108, 247, 119, 236, 218, 65, 154, 1, 55, 172, 44, 183, 129, 26, 12, 151, 161, 58, 186, 33, 23, 140, 87, 204, 250, 97, 225, 122, 76, 215, 71, 220, 234, 113, 241, 106, 92, 199, 28, 135, 177, 42, 170, 49, 7, 156, 138, 17, 39, 188, 60, 167, 145, 10, 209, 74, 124, 231, 103, 252, 202, 81, 130, 25, 47, 180, 52, 175, 153, 2, 217, 66, 116, 239, 111, 244, 194, 89, 79, 212, 226, 121, 249, 98, 84, 207, 20, 143, 185, 34, 162, 57, 15, 148, 4, 159, 169, 50, 178, 41, 31, 132, 95, 196, 242, 105, 233, 114, 68, 223, 201, 82, 100, 255, 127, 228, 210, 73, 146, 9, 63, 164, 36, 191, 137, 18]

def fInvTable : List Nat := [0, 217, 181, 108, 109, 180, 216, 1, 218, 3, 111, 182, 183, 110, 2, 219, 179, 106, 6, 223, 222, 7, 107, 178, 105, 176, 220, 5, 4, 221, 177, 104, 97, 184, 212, 13, 12, 213, 185, 96, 187, 98, 14, 215, 214, 15, 99, 186, 210, 11, 103, 190, 191, 102, 10, 211, 8, 209, 189, 100, 101, 188, 208, 9, 194, 27, 119, 174, 175, 118, 26, 195, 24, 193, 173, 116, 117, 172, 192, 25, 113, 168, 196, 29, 28, 197, 169, 112, 171, 114, 30, 199, 198, 31, 115, 170, 163, 122, 22, 207, 206, 23, 123, 162, 121, 160, 204, 21, 20, 205, 161, 120, 16, 201, 165, 124, 125, 164, 200, 17, 202, 19, 127, 166, 167, 126, 18, 203, 131, 90, 54, 239, 238, 55, 91, 130, 89, 128, 236, 53, 52, 237, 129, 88, 48, 233, 133, 92, 93, 132, 232, 49, 234, 51, 95, 134, 135, 94, 50, 235, 226, 59, 87, 142, 143, 86, 58, 227, 56, 225, 141, 84, 85, 140, 224, 57, 81, 136, 228, 61, 60, 229, 137, 80, 139, 82, 62, 231, 230, 63, 83, 138, 65, 152, 244, 45, 44, 245, 153, 64, 155, 66, 46, 247, 246, 47, 67, 154, 242, 43, 71, 158, 159, 70, 42, 243, 40, 241, 157, 68, 69, 156, 240, 41, 32, 249, 149, 76, 77, 148, 248, 33, 250, 35, 79, 150, 151, 78, 34, 251, 147, 74, 38, 255, 254, 39, 75, 146, 73, 144, 252, 37, 36, 253, 145, 72]

/-! ## Concrete instances used by witnesses and counterexamples -/

/-- A configuration with the spec scenario numbers: maximum
under-extrusion rate 0.1 and dwell period 2 seconds. -/
def cfg0 : SensorConfig :=
  { invert_direction := false
    rotation_distance := 1
    underextrusion_max_rate := 1 / 10
    underextrusion_period := 2 }

/-- The initial object state from source lines 409-425: position 0, no
moves, trigger values as constructed (sensor_connected and
filament_present start at None, underextruding at False), magnet state
at the 0xff sentinel, 12-bit rotation helper with 3 hysteresis bits. -/
def st0 : HRFS :=
  { sensor_connected := none
    magnet_state := 0xff
    filament_present := none
    rotation := { resolution := 12, ignore_bits := 3, absPos := 0 }
    position := 0
    moves := []
    capture_history := false
    last_epos := 0
    underextrusion_start_time := none
    underextruding := some false
    status_evaluation_move := none }

/-- A move with expected distance 10 and measured distance 2. -/
def mvExp10Meas2 : CommandedMove :=
  { CommandedMove.init 0 0 0 10 with
      first_event := some { eventtime := 0, position := 0, distance := 0, epos := 0 }
      last_event := some { eventtime := 1, position := 2, distance := 1, epos := 10 } }

/-- A move with expected distance 10 and measured distance -5. -/
def mvExp10MeasNeg5 : CommandedMove :=
  { CommandedMove.init 0 0 0 10 with
      first_event := some { eventtime := 0, position := 0, distance := 0, epos := 0 }
      last_event := some { eventtime := 1, position := -5, distance := -1, epos := 10 } }

/-- A move with expected distance 10 and measured distance 15. -/
def mvExp10Meas15 : CommandedMove :=
  { CommandedMove.init 0 0 0 10 with
      first_event := some { eventtime := 0, position := 0, distance := 0, epos := 0 }
      last_event := some { eventtime := 1, position := 15, distance := 1, epos := 10 } }

/-- The spec scenario move: expected distance 5, measured distance 0,
giving under-extrusion rate 1. -/
def mvExp5Meas0 : CommandedMove :=
  { CommandedMove.init 0 0 0 5 with
      first_event := some { eventtime := 0, position := 0, distance := 0, epos := 0 }
      last_event := some { eventtime := 1, position := 0, distance := 0, epos := 5 } }

/-- State during a print with filament present and the scenario move as
the evaluation aggregate, no under-extrusion timer running. -/
def stRunout : HRFS :=
  { st0 with filament_present := some true
             status_evaluation_move := some mvExp5Meas0 }

/-- Same state with an under-extrusion timer recorded at time 0. -/
def stRunoutTimer0 : HRFS :=
  { stRunout with underextrusion_start_time := some 0 }

/-- The ledger state after 105 commanded-move insertions (commanded
extruder positions 1, 2, ..., 105) starting from the initial state. -/
def ledger105 : HRFS :=
  (List.range 105).foldl
    (fun st i => inspectCommandedMove st true 0 ((i : ℚ) + 1)) st0

/-! ## Helper lemmas: XOR distribution and the CRC-8 byte map -/

theorem xor_shiftRight_distrib (x y k : Nat) : (x ^^^ y) >>> k = (x >>> k) ^^^ (y >>> k) := by
  apply Nat.eq_of_testBit_eq
  intro i
  simp [Nat.testBit_shiftRight, Nat.testBit_xor]

theorem xor_shiftLeft_distrib (x y k : Nat) : (x ^^^ y) <<< k = (x <<< k) ^^^ (y <<< k) := by
  apply Nat.eq_of_testBit_eq
  intro i
  simp [Nat.testBit_shiftLeft, Nat.testBit_xor, Bool.and_xor_distrib_left]

theorem xorLeftComm (a b c : Nat) : a ^^^ (b ^^^ c) = b ^^^ (a ^^^ c) := by
  rw [← Nat.xor_assoc, Nat.xor_comm a b, Nat.xor_assoc]

theorem crc8Bit_lt (c b : Nat) : crc8Bit c b < 256 := by
  unfold crc8Bit
  split
  · have h : ((c <<< 1) ^^^ 7) &&& 255 ≤ 255 := Nat.and_le_right
    omega
  · have h : (c <<< 1) &&& 255 ≤ 255 := Nat.and_le_right
    omega

theorem crc8Bit_affine (c b : Nat) :
    crc8Bit c b = ((c <<< 1) &&& 255) ^^^ (if (c >>> 7) ^^^ (b &&& 1) ≠ 0 then 7 else 0) := by
  unfold crc8Bit
  have h7 : (7 : Nat) &&& 255 = 7 := by decide
  split
  · rw [Nat.and_xor_distrib_right, h7]
  · simp

theorem if7_xor (p q : Nat) (hp : p ≤ 1) (hq : q ≤ 1) :
    (if p ^^^ q ≠ 0 then (7 : Nat) else 0) =
      (if p ≠ 0 then (7 : Nat) else 0) ^^^ (if q ≠ 0 then (7 : Nat) else 0) := by
  interval_cases p <;> interval_cases q <;> decide

theorem shiftRight7_le (x : Nat) (hx : x < 256) : x >>> 7 ≤ 1 := by
  rw [Nat.shiftRight_eq_div_pow]
  omega

theorem and1_le (u : Nat) : u &&& 1 ≤ 1 := Nat.and_le_right

theorem xor_le_one (p q : Nat) (hp : p ≤ 1) (hq : q ≤ 1) : p ^^^ q ≤ 1 := by
  interval_cases p <;> interval_cases q <;> decide

/-- The CRC-8 bit step is compatible with bitwise XOR superposition of
state and input. -/
theorem crc8Bit_sup (x y u v : Nat) (hx : x < 256) (hy : y < 256) :
    crc8Bit (x ^^^ y) (u ^^^ v) = crc8Bit x u ^^^ crc8Bit y v := by
  rw [crc8Bit_affine, crc8Bit_affine, crc8Bit_affine]
  rw [xor_shiftLeft_distrib, Nat.and_xor_distrib_right]
  rw [xor_shiftRight_distrib, Nat.and_xor_distrib_right]
  have hcond : (x >>> 7 ^^^ y >>> 7) ^^^ (u &&& 1 ^^^ v &&& 1) =
      (x >>> 7 ^^^ u &&& 1) ^^^ (y >>> 7 ^^^ v &&& 1) := by
    simp [Nat.xor_assoc, Nat.xor_comm, xorLeftComm]
  rw [hcond]
  rw [if7_xor (x >>> 7 ^^^ u &&& 1) (y >>> 7 ^^^ v &&& 1)
      (xor_le_one _ _ (shiftRight7_le x hx) (and1_le u))
      (xor_le_one _ _ (shiftRight7_le y hy) (and1_le v))]
  simp [Nat.xor_assoc, Nat.xor_comm, xorLeftComm]

theorem crc8ByteAux_sup (n : Nat) :
    ∀ x y u v, x < 256 → y < 256 →
      (crc8ByteAux n (x ^^^ y, u ^^^ v)).1 =
        (crc8ByteAux n (x, u)).1 ^^^ (crc8ByteAux n (y, v)).1 := by
  induction n with
  | zero => intro x y u v hx hy; rfl
  | succ n ih =>
      intro x y u v hx hy
      show (crc8ByteAux n (crc8Bit (x ^^^ y) (u ^^^ v), (u ^^^ v) >>> 1)).1 = _
      rw [crc8Bit_sup x y u v hx hy, xor_shiftRight_distrib]
      exact ih _ _ _ _ (crc8Bit_lt x u) (crc8Bit_lt y v)

/-- The CRC-8 byte map is compatible with bitwise XOR superposition. -/
theorem crc8Byte_sup (x y u v : Nat) (hx : x < 256) (hy : y < 256) :
    crc8Byte (x ^^^ y) (u ^^^ v) = crc8Byte x u ^^^ crc8Byte y v :=
  crc8ByteAux_sup 8 x y u v hx hy

/-- The CRC-8 byte map splits into its two marginal maps. -/
theorem crc8Byte_split (c b : Nat) (hc : c < 256) :
    crc8Byte c b = crc8Byte c 0 ^^^ crc8Byte 0 b := by
  have h := crc8Byte_sup c 0 0 b hc (by norm_num)
  simpa using h

set_option maxRecDepth 10000 in
set_option maxHeartbeats 4000000 in
/-- gInvTable inverts the map from input byte to CRC-8 value at state 0. -/
theorem gInv_spec : ∀ b < 256, gInvTable.getD (crc8Byte 0 b) 0 = b := by decide

set_option maxRecDepth 10000 in
set_option maxHeartbeats 4000000 in
/-- fInvTable inverts the map from CRC-8 state to its value after a zero
byte. -/
theorem fInv_spec : ∀ c < 256, fInvTable.getD (crc8Byte c 0) 0 = c := by decide

theorem crc8Byte_lt (c b : Nat) : crc8Byte c b < 256 := by
  show (crc8ByteAux 8 (c, b)).1 < 256
  have haux : ∀ n c b, (crc8ByteAux (n + 1) (c, b)).1 < 256 := by
    intro n
    induction n with
    | zero => intro c b; exact crc8Bit_lt c b
    | succ n ih => intro c b; exact ih (crc8Bit c b) (b >>> 1)
  exact haux 7 c b

/-- For a fixed state below 256, distinct bytes yield distinct CRC-8
values. -/
theorem crc8Byte_inj_right (c b1 b2 : Nat) (hc : c < 256) (h1 : b1 < 256) (h2 : b2 < 256)
    (h : crc8Byte c b1 = crc8Byte c b2) : b1 = b2 := by
  rw [crc8Byte_split c b1 hc, crc8Byte_split c b2 hc] at h
  have hg : crc8Byte 0 b1 = crc8Byte 0 b2 := Nat.xor_right_inj.mp h
  have e1 := gInv_spec b1 h1
  have e2 := gInv_spec b2 h2
  rw [← e1, ← e2, hg]

/-- For a fixed byte, distinct states below 256 yield distinct CRC-8
values. -/
theorem crc8Byte_inj_left (b c1 c2 : Nat) (h1 : c1 < 256) (h2 : c2 < 256)
    (h : crc8Byte c1 b = crc8Byte c2 b) : c1 = c2 := by
  rw [crc8Byte_split c1 b h1, crc8Byte_split c2 b h2] at h
  have hf : crc8Byte c1 0 = crc8Byte c2 0 := Nat.xor_left_inj.mp h
  have e1 := fInv_spec c1 h1
  have e2 := fInv_spec c2 h2
  rw [← e1, ← e2, hf]

theorem foldl_crc8_lt (l : List Nat) (c : Nat) (hc : c < 256) : l.foldl crc8Byte c < 256 := by
  induction l generalizing c with
  | nil => simpa using hc
  | cons x xs ih => exact ih _ (crc8Byte_lt c x)

theorem foldl_crc8_inj (l : List Nat) (c1 c2 : Nat) (h1 : c1 < 256) (h2 : c2 < 256)
    (hne : c1 ≠ c2) : l.foldl crc8Byte c1 ≠ l.foldl crc8Byte c2 := by
  induction l generalizing c1 c2 with
  | nil => simpa using hne
  | cons x xs ih =>
      exact ih (crc8Byte c1 x) (crc8Byte c2 x) (crc8Byte_lt _ _) (crc8Byte_lt _ _)
        (fun he => hne (crc8Byte_inj_left x c1 c2 h1 h2 he))

/-- Changing exactly one byte of a message changes its CRC-8. -/
theorem calcCrc8_tamper (pre suf : List Nat) (b1 b2 : Nat)
    (h1 : b1 < 256) (h2 : b2 < 256) (hne : b1 ≠ b2) :
    calcCrc8 (pre ++ b1 :: suf) ≠ calcCrc8 (pre ++ b2 :: suf) := by
  unfold calcCrc8
  rw [List.foldl_append, List.foldl_append, List.foldl_cons, List.foldl_cons]
  have hslt : List.foldl crc8Byte 0 pre < 256 := foldl_crc8_lt pre 0 (by norm_num)
  exact foldl_crc8_inj suf _ _ (crc8Byte_lt _ _) (crc8Byte_lt _ _)
    (fun he => hne (crc8Byte_inj_right _ b1 b2 hslt h1 h2 he))

/-! ## Remaining helper lemmas -/

theorem trimMovesAux_length_le (n : Nat) :
    ∀ l : List CommandedMove, l.length ≤ 100 + n → (trimMovesAux n l).length ≤ 100 := by
  induction n with
  | zero => intro l h; simpa using h
  | succ n ih =>
      intro l h
      unfold trimMovesAux
      split
      · apply ih
        simp only [List.length_dropLast]
        omega
      · omega

theorem trimMoves_length_le (l : List CommandedMove) : (trimMoves l).length ≤ 100 := by
  unfold trimMoves
  apply trimMovesAux_length_le
  omega

/-- Clearing the low k bits of a value that splits as h * 2^k + r with
0 ≤ r < 2^k leaves h * 2^k. -/
theorem pyAndNotMask_mul_add (h r : Int) (k : Nat) (h0 : 0 ≤ r) (h1 : r < 2 ^ k) :
    pyAndNotMask (h * 2 ^ k + r) k = h * 2 ^ k := by
  unfold pyAndNotMask
  have hsplit : h * 2 ^ k + r = r + 2 ^ k * h := by ring
  have hmod : (h * 2 ^ k + r) % (2 ^ k : Int) = r := by
    rw [hsplit]
    rw [Int.add_mul_emod_self_left]
    exact Int.emod_eq_of_lt h0 h1
  rw [hmod]
  ring

/-! ## Claim theorems -/

/-- C1: in the block-read strategy, a transport error makes i2c_read_reg
return None; _update_state_from_sensor then sets sensor_connected to
False but raises a TypeError while formatting the warning (len of None),
so it does not return normally — the no-crash part of the claim fails on
that path.  A response with a wrong byte count is handled as claimed:
sensor_connected becomes False and the method returns without raising. -/
theorem C1_block_read_failure (cfg : SensorConfig) (t e : ℚ) (st : HRFS) :
    (updateStateFromSensorBlock cfg t e st none =
      ({ st with sensor_connected := some false }, some PyErr.typeError)) ∧
    (∀ data : List Nat, data.length ≠ 10 →
      updateStateFromSensorBlock cfg t e st (some data) =
        ({ st with sensor_connected := some false }, none)) := by
  constructor
  · rfl
  · intro data hlen
    simp only [updateStateFromSensorBlock]
    rw [if_pos (Or.inr hlen)]

/-- Witness for C1 at concrete inputs: a three-byte response marks the
sensor disconnected and returns without an exception. -/
theorem C1_block_read_failure_witness :
    updateStateFromSensorBlock cfg0 0 0 st0 (some [1, 2, 3]) =
      ({ st0 with sensor_connected := some false }, none) :=
  (C1_block_read_failure cfg0 0 0 st0).2 [1, 2, 3] (by decide)

/-- C2 counterexample: the raw angles 0 and 7 differ only in their
lowest 3 (ignored) bits, yet after one full turn the absolute angular
positions differ, because the mask is applied to turns * 4095 + angle
and the ignored low bits of the sum carry into the kept bits. -/
theorem C2_masking_counterexample :
    pyAndNotMask 0 3 = pyAndNotMask 7 3 ∧
    SensorRotationHelper.absolute_angular_position
        (SensorRotationHelper.update_raw
          { resolution := 12, ignore_bits := 3, absPos := 0 } 1 0) ≠
      SensorRotationHelper.absolute_angular_position
        (SensorRotationHelper.update_raw
          { resolution := 12, ignore_bits := 3, absPos := 0 } 1 7) := by
  constructor
  · decide
  · with_unfolding_all decide

/-- C2 amended: for turn count 0 two raw angle readings differing only
in the lowest ignore_bits bits produce identical absolute angular
positions; for a non-zero turn count the invariant can fail because the
mask is applied after combining turns and angle, so a carry from the
ignored bits changes the kept bits of the sum. -/
theorem C2_masking_amended (k : Nat) (hi r1 r2 : Int)
    (h1 : 0 ≤ r1) (h2 : r1 < 2 ^ k) (h3 : 0 ≤ r2) (h4 : r2 < 2 ^ k) :
    SensorRotationHelper.absolute_angular_position
        (SensorRotationHelper.update_raw
          { resolution := 12, ignore_bits := k, absPos := 0 } 0 (hi * 2 ^ k + r1)) =
      SensorRotationHelper.absolute_angular_position
        (SensorRotationHelper.update_raw
          { resolution := 12, ignore_bits := k, absPos := 0 } 0 (hi * 2 ^ k + r2)) := by
  unfold SensorRotationHelper.absolute_angular_position SensorRotationHelper.update_raw
  simp only [zero_mul, zero_add]
  rw [pyAndNotMask_mul_add hi r1 k h1 h2, pyAndNotMask_mul_add hi r2 k h3 h4]
  simp [SensorRotationHelper.angle_max_value]

/-- Witness for C2 amended: with 3 ignored bits and no full turn, raw
angles 41 and 47 yield the same position. -/
theorem C2_masking_amended_witness :
    SensorRotationHelper.absolute_angular_position
        (SensorRotationHelper.update_raw
          { resolution := 12, ignore_bits := 3, absPos := 0 } 0 (5 * 2 ^ 3 + 1)) =
      SensorRotationHelper.absolute_angular_position
        (SensorRotationHelper.update_raw
          { resolution := 12, ignore_bits := 3, absPos := 0 } 0 (5 * 2 ^ 3 + 7)) :=
  C2_masking_amended 3 5 1 7 (by decide) (by decide) (by decide) (by decide)

/-- C3: for an unstuffed frame of length at least 5 whose trailing CRC-8
is valid and whose byte 2 echoes the requested register, the marker
check rejects only when byte 0 differs from 0x05 AND byte 1 differs from
0xff; when at least one of the two markers matches, the frame passes the
marker check and its payload is returned. -/
theorem C3_marker_check (reg : Nat) (f : List Nat)
    (hlen : 5 ≤ f.length)
    (hcrc : f.getLast? = some (calcCrc8 f.dropLast))
    (hreg : f.getD 2 0 = reg) :
    (f.getD 0 0 ≠ 0x05 → f.getD 1 0 ≠ 0xff → decodeFrame reg f = none) ∧
    ((f.getD 0 0 = 0x05 ∨ f.getD 1 0 = 0xff) →
      decodeFrame reg f = some ((f.drop 3).dropLast)) := by
  unfold decodeFrame
  rw [if_neg (by omega)]
  rw [if_neg (by simp [hcrc])]
  constructor
  · intro h0 h1
    rw [if_pos ⟨h0, h1⟩]
  · intro hor
    rw [if_neg (by tauto), if_neg (by simpa using hreg)]

/-- Witness for C3: a frame whose byte 0 is not the 0x05 marker but
whose byte 1 is 0xff passes the marker check and its payload is
extracted. -/
theorem C3_marker_check_witness :
    decodeFrame 36 [6, 255, 36, 1, calcCrc8 [6, 255, 36, 1]] =
      some (([6, 255, 36, 1, calcCrc8 [6, 255, 36, 1]].drop 3).dropLast) :=
  (C3_marker_check 36 [6, 255, 36, 1, calcCrc8 [6, 255, 36, 1]]
    (by decide) rfl rfl).2 (Or.inr rfl)

/-- C4: with a defined non-zero expected distance d and measured
distance md, the under-extrusion rate is min(1, max(-1, 1 - md / d)); it
is 0 with no move; and the three concrete cases give 0.8 for
(d, md) = (10, 2), 1 (clamped) for (10, -5), and -0.5 for (10, 15). -/
theorem C4_underextrusion_rate :
    (∀ (mv : CommandedMove) (d md : ℚ), mv.expected_distance = some d → d ≠ 0 →
        mv.measured_distance = Except.ok md →
        measuredUnderextrusionRate (some mv) =
          Except.ok (min 1 (max (-1) (1 - md / d)))) ∧
    measuredUnderextrusionRate none = Except.ok 0 ∧
    measuredUnderextrusionRate (some mvExp10Meas2) = Except.ok (4 / 5) ∧
    measuredUnderextrusionRate (some mvExp10MeasNeg5) = Except.ok 1 ∧
    measuredUnderextrusionRate (some mvExp10Meas15) = Except.ok (-(1 / 2)) := by
  refine ⟨?_, rfl, ?_, ?_, ?_⟩
  · intro mv d md hexp hd hmd
    have hrate : mv.extrusion_rate = Except.ok (md / d) := by
      unfold CommandedMove.extrusion_rate
      rw [hexp]
      simp [pyTruthyQ, hd, hmd]
    simp only [measuredUnderextrusionRate]
    rw [hrate]
    rfl
  · with_unfolding_all decide
  · with_unfolding_all decide
  · with_unfolding_all decide

/-- Witness for C4: the general form applied to the (10, 2) move. -/
theorem C4_underextrusion_rate_witness :
    measuredUnderextrusionRate (some mvExp10Meas2) =
      Except.ok (min 1 (max (-1) (1 - 2 / 10))) :=
  C4_underextrusion_rate.1 mvExp10Meas2 10 2
    (by with_unfolding_all decide) (by norm_num) (by with_unfolding_all decide)

/-- C5 counterexample: with dwell period 2 and the under-extrusion timer
recorded at time 0, the tick at time 2 — elapsed time exactly equal to
the period, rate 1 above the 0.1 threshold, filament present — still
returns False and leaves the under-extruding flag unset, although the
claim requires firing true once elapsed >= period. -/
theorem C5_dwell_counterexample :
    cfg0.underextrusion_period = 2 ∧
    stRunoutTimer0.underextrusion_start_time = some 0 ∧
    measuredUnderextrusionRate stRunoutTimer0.status_evaluation_move = Except.ok 1 ∧
    isRunoutCondition cfg0 2 stRunoutTimer0 = Except.ok (stRunoutTimer0, false) := by
  refine ⟨rfl, rfl, ?_, ?_⟩
  · with_unfolding_all decide
  · with_unfolding_all decide

/-- C5 amended: with filament present, the first tick whose rate exceeds
the threshold records the start time and returns False; a later tick
returns True and sets the under-extruding flag once the elapsed time
STRICTLY exceeds the dwell period (at elapsed = period it still returns
False); and on a tick at or under the threshold the timer and the flag
are reset. -/
theorem C5_underextrusion_dwell (cfg : SensorConfig) (now r : ℚ) (st : HRFS)
    (hfp : st.filament_present = some true)
    (hrate : measuredUnderextrusionRate st.status_evaluation_move = Except.ok r) :
    (r > cfg.underextrusion_max_rate → st.underextrusion_start_time = none →
      isRunoutCondition cfg now st =
        Except.ok ({ st with underextrusion_start_time := some now }, false)) ∧
    (∀ t0, r > cfg.underextrusion_max_rate → st.underextrusion_start_time = some t0 →
      t0 + cfg.underextrusion_period < now →
      isRunoutCondition cfg now st =
        Except.ok ({ st with underextruding := some true }, true)) ∧
    (∀ t0, r > cfg.underextrusion_max_rate → st.underextrusion_start_time = some t0 →
      ¬ t0 + cfg.underextrusion_period < now →
      isRunoutCondition cfg now st = Except.ok (st, false)) ∧
    (r ≤ cfg.underextrusion_max_rate →
      (st.underextrusion_start_time = none → st.underextruding = some false) →
      ∃ st2, isRunoutCondition cfg now st = Except.ok (st2, false) ∧
        st2.underextrusion_start_time = none ∧ st2.underextruding = some false) := by
  refine ⟨?_, ?_, ?_, ?_⟩
  · intro hgt hnone
    unfold isRunoutCondition
    rw [hfp]
    simp only [pyBoolOpt, Except.bind, Bind.bind, Bool.not_true, Bool.false_eq_true, if_false,
      hrate, if_pos hgt, hnone]
    rfl
  · intro t0 hgt hsome helapsed
    unfold isRunoutCondition
    rw [hfp]
    simp only [pyBoolOpt, Except.bind, Bind.bind, Bool.not_true, Bool.false_eq_true, if_false,
      hrate, if_pos hgt, hsome, if_pos helapsed]
    rfl
  · intro t0 hgt hsome helapsed
    unfold isRunoutCondition
    rw [hfp]
    simp only [pyBoolOpt, Except.bind, Bind.bind, Bool.not_true, Bool.false_eq_true, if_false,
      hrate, if_pos hgt, hsome, if_neg helapsed]
    rfl
  · intro hle hinv
    unfold isRunoutCondition
    rw [hfp]
    simp only [pyBoolOpt, Except.bind, Bind.bind, Bool.not_true, Bool.false_eq_true, if_false,
      hrate, if_neg (not_lt.mpr hle)]
    match hss : st.underextrusion_start_time with
    | some t0 => exact ⟨_, rfl, rfl, rfl⟩
    | none => exact ⟨st, rfl, hss, hinv hss⟩

/-- Witness for C5 amended: rate 1 against threshold 0.1 with the timer
recorded at 0 and dwell period 2 fires true at time 5. -/
theorem C5_underextrusion_dwell_witness :
    isRunoutCondition cfg0 5 stRunoutTimer0 =
      Except.ok ({ stRunoutTimer0 with underextruding := some true }, true) :=
  (C5_underextrusion_dwell cfg0 5 1 stRunoutTimer0 rfl
      (by with_unfolding_all decide)).2.1 0
    (by norm_num [cfg0]) rfl (by norm_num [cfg0])

/-- C6: _decode_read returns no data whenever the unstuffed frame is
shorter than 5 bytes, or its last byte differs from the CRC-8 of all
preceding bytes, or byte 2 differs from the requested register; a frame
with one payload byte tampered and the CRC byte unchanged is always
rejected; and a well-formed frame (correct CRC, markers, matching
register) is accepted with payload equal to the bytes strictly between
the register echo and the CRC byte. -/
theorem C6_frame_validation :
    (∀ (reg : Nat) (f : List Nat), f.length < 5 → decodeFrame reg f = none) ∧
    (∀ (reg : Nat) (f : List Nat), f.getLast? ≠ some (calcCrc8 f.dropLast) →
      decodeFrame reg f = none) ∧
    (∀ (reg : Nat) (f : List Nat), f.getD 2 0 ≠ reg → decodeFrame reg f = none) ∧
    (∀ (reg : Nat) (pre suf : List Nat) (b1 b2 crc : Nat),
      decodeFrame reg (pre ++ b1 :: suf ++ [crc]) ≠ none →
      b1 ≠ b2 → b1 < 256 → b2 < 256 →
      decodeFrame reg (pre ++ b2 :: suf ++ [crc]) = none) ∧
    (∀ (reg : Nat) (payload : List Nat), payload ≠ [] →
      decodeFrame reg
        (0x05 :: 0xff :: reg :: payload ++ [calcCrc8 (0x05 :: 0xff :: reg :: payload)]) =
        some payload) := by
  refine ⟨?_, ?_, ?_, ?_, ?_⟩
  · intro reg f hlen
    unfold decodeFrame
    rw [if_pos hlen]
  · intro reg f hcrc
    by_cases h1 : f.length < 5
    · simp [decodeFrame, h1]
    · simp [decodeFrame, h1, hcrc]
  · intro reg f hreg
    have hreg2 : ¬ f[2]?.getD 0 = reg := by simpa using hreg
    by_cases h1 : f.length < 5
    · simp [decodeFrame, h1]
    · by_cases h2 : f.getLast? ≠ some (calcCrc8 f.dropLast)
      · simp [decodeFrame, h1, h2]
      · simp [decodeFrame, h1, h2, hreg2]
  · intro reg pre suf b1 b2 crc hacc hne h1 h2
    have hgl1 : (pre ++ b1 :: suf ++ [crc]).getLast? = some crc := by
      generalize pre ++ b1 :: suf = M; simp
    have hdl1 : (pre ++ b1 :: suf ++ [crc]).dropLast = pre ++ b1 :: suf := by
      generalize pre ++ b1 :: suf = M; simp
    have hgl2 : (pre ++ b2 :: suf ++ [crc]).getLast? = some crc := by
      generalize pre ++ b2 :: suf = M; simp
    have hdl2 : (pre ++ b2 :: suf ++ [crc]).dropLast = pre ++ b2 :: suf := by
      generalize pre ++ b2 :: suf = M; simp
    have hcrc1 : crc = calcCrc8 (pre ++ b1 :: suf) := by
      by_contra hcon
      apply hacc
      unfold decodeFrame
      split
      · rfl
      · rw [if_pos (by rw [hgl1, hdl1]; simpa using hcon)]
    unfold decodeFrame
    split
    · rfl
    · rw [if_pos (by
        rw [hgl2, hdl2, hcrc1]
        simpa using calcCrc8_tamper pre suf b1 b2 h1 h2 hne)]
  · intro reg payload hpl
    have hlenp := List.length_pos.mpr hpl
    unfold decodeFrame
    rw [if_neg (by simp; omega)]
    rw [if_neg (by generalize (0x05 : Nat) :: 0xff :: reg :: payload = M; simp)]
    rw [if_neg (by simp)]
    rw [if_neg (by simp)]
    simp

set_option maxRecDepth 40000 in
/-- Witness for C6: concrete frames for each rejection case, a tampered
frame rejected, and a valid frame for register 0x10 with payload [1]
accepted. -/
theorem C6_frame_validation_witness :
    decodeFrame 16 [5, 255, 16] = none ∧
    decodeFrame 16 [5, 255, 16, 1, 99] = none ∧
    decodeFrame 17 [5, 255, 16, 1, calcCrc8 [5, 255, 16, 1]] = none ∧
    decodeFrame 16 ([5, 255, 16] ++ 2 :: [] ++ [calcCrc8 ([5, 255, 16] ++ 1 :: [])]) = none ∧
    decodeFrame 16 (0x05 :: 0xff :: 16 :: [1] ++ [calcCrc8 (0x05 :: 0xff :: 16 :: [1])]) =
      some [1] :=
  ⟨C6_frame_validation.1 16 [5, 255, 16] (by decide),
   C6_frame_validation.2.1 16 [5, 255, 16, 1, 99] (by decide),
   C6_frame_validation.2.2.1 17 [5, 255, 16, 1, calcCrc8 [5, 255, 16, 1]] (by decide),
   C6_frame_validation.2.2.2.1 16 [5, 255, 16] [] 1 2 (calcCrc8 ([5, 255, 16] ++ 1 :: []))
     (by decide) (by decide) (by decide) (by decide),
   C6_frame_validation.2.2.2.2 16 [1] (by decide)⟩

/-- C7: starting from stored value False, the sequence of set calls
[True, True, False, False, True] fires the callback exactly three times,
with new values True, then False, then True, in that order — once per
actual transition and never on a repeated identical value. -/
theorem C7_edge_trigger :
    ([true, true, false, false, true].foldl TriggerOnChange.set
        { value := some false, calls := [] }).calls =
      [(some false, true), (some true, false), (some false, true)] := by
  decide

/-- C8: a trigger initialized with the unset value None invokes its
callback on the first set call with old value None, and the
sensor-connected callback emits no user-visible console message when the
old value is None — the initial unset-to-first-value transition produces
no user-visible notification. -/
theorem C8_initial_transition_suppressed (v : Bool) :
    (TriggerOnChange.set { value := none, calls := [] } v).calls = [(none, v)] ∧
    sensorConnectedChanged none v = [] := by
  constructor
  · simp [TriggerOnChange.set]
  · simp [sensorConnectedChanged]

/-- Witness for C8 at the concrete value True. -/
theorem C8_initial_transition_suppressed_witness :
    (TriggerOnChange.set { value := none, calls := [] } true).calls = [(none, true)] ∧
    sensorConnectedChanged none true = [] :=
  C8_initial_transition_suppressed true

set_option maxRecDepth 100000 in
set_option maxHeartbeats 1000000 in
/-- C9: every _inspect_commanded_move call leaves the commanded-move
ledger with at most 100 moves (the bound is preserved from any state
satisfying it), and 105 insertions with changing commanded positions
1..105 from the empty initial ledger leave exactly the 100 newest moves,
the oldest 5 discarded. -/
theorem C9_ledger_bound :
    (∀ (st : HRFS) (em : Bool) (t e : ℚ), st.moves.length ≤ 100 →
      (inspectCommandedMove st em t e).moves.length ≤ 100) ∧
    ledger105.moves.length = 100 ∧
    ledger105.moves.map (fun m => m.epos) =
      (List.range 100).map (fun i => (105 - (i : ℚ))) := by
  refine ⟨?_, ?_, ?_⟩
  · intro st em t e hle
    unfold inspectCommandedMove
    split
    · exact hle
    · exact trimMoves_length_le _
  · with_unfolding_all decide
  · with_unfolding_all decide

/-- Witness for C9: one insertion into the empty initial ledger keeps
the bound. -/
theorem C9_ledger_bound_witness :
    (inspectCommandedMove st0 true 0 1).moves.length ≤ 100 :=
  C9_ledger_bound.1 st0 true 0 1 (by decide)

/-- C10: the speed property returns None without dividing whenever the
move has no motion events or its first and last motion events coincide
in time, and extrusion_rate returns 0 whenever expected_distance is None
or exactly 0 — neither derived metric can divide by zero. -/
theorem C10_division_guards (m : CommandedMove) :
    (m.last_motion_event = none → m.speed = Except.ok none) ∧
    (∀ f l, m.first_motion_event = some f → m.last_motion_event = some l →
      f.eventtime = l.eventtime → m.speed = Except.ok none) ∧
    ((m.expected_distance = none ∨ m.expected_distance = some 0) →
      m.extrusion_rate = Except.ok 0) := by
  refine ⟨?_, ?_, ?_⟩
  · intro hnone
    simp [CommandedMove.speed, CommandedMove.duration, CommandedMove.last_motion_eventtime,
      hnone, pyTruthyQ, Bind.bind, Except.bind, Pure.pure, Except.pure]
  · intro f l hf hl he
    by_cases hz : l.eventtime = 0
    · simp [CommandedMove.speed, CommandedMove.duration, CommandedMove.last_motion_eventtime,
        hl, pyTruthyQ, hz, Bind.bind, Except.bind, Pure.pure, Except.pure]
    · simp [CommandedMove.speed, CommandedMove.duration, CommandedMove.last_motion_eventtime,
        CommandedMove.first_motion_eventtime, hf, hl, pyTruthyQ, hz, he,
        Bind.bind, Except.bind, Pure.pure, Except.pure]
  · intro hexp
    rcases hexp with hexp | hexp <;>
      simp [CommandedMove.extrusion_rate, hexp, pyTruthyQ]

/-- Witness for C10: a freshly constructed move has speed None and
extrusion rate 0. -/
theorem C10_division_guards_witness :
    (CommandedMove.init 0 0 0 0).speed = Except.ok none ∧
    (CommandedMove.init 0 0 0 0).extrusion_rate = Except.ok 0 :=
  ⟨(C10_division_guards (CommandedMove.init 0 0 0 0)).1 rfl,
   (C10_division_guards (CommandedMove.init 0 0 0 0)).2.2 (Or.inl rfl)⟩
